import Mathlib

/-!
Shallow embedding of `backend/src/apiserver/server/run_server.go` from the
kubeflow/pipelines repository (RunServer: the authorization-scoped request
orchestration layer for the Run resource).

The file under verification is a thin orchestration layer: every operation
sequences payload validation, an authorization check, and a delegation to
external collaborators (the resource engine, the authorizer, and the
validators defined in sibling files of the `server` package).  Those
collaborators are modelled as oracle functions collected in an `Env`
record; the embedding reproduces the control flow of `run_server.go`
exactly over those oracles, and additionally records every collaborator
call in an event trace, so that "the engine is never invoked" style
properties become statements about the trace.
-/

/-- Error codes of the `util` error package (gRPC canonical codes as used by
`util.NewInvalidInputError`, `util.NewInternalServerError`, and by errors
propagated from the engine). -/
inductive ErrCode where
  | invalidArgument
  | internal
  | notFound
  | permissionDenied
  | other
  deriving DecidableEq, Repr

/-- A service error: a canonical code together with a message.
`util.Wrap` preserves the code and prefixes the message. -/
structure SvcError where
  code : ErrCode
  msg : String
  deriving DecidableEq, Repr

/-- Model of `util.Wrap(err, message)`: wraps an error with a stage label, preserving
the underlying error code. -/
def Util.Wrap (err : SvcError) (message : String) : SvcError :=
  ⟨err.code, message ++ ": " ++ err.msg⟩

/-- Model of `util.NewInvalidInputError(message)`. -/
def Util.NewInvalidInputError (message : String) : SvcError :=
  ⟨ErrCode.invalidArgument, message⟩

/-- Model of `util.NewInternalServerError(err, message)` (the wrapped cause is folded
into the message). -/
def Util.NewInternalServerError (message : String) : SvcError :=
  ⟨ErrCode.internal, message⟩

/-- Constant `common.Namespace` resource-reference type constant. -/
def Common.Namespace : String := "Namespace"

/-- Constant `common.Experiment` resource-reference type constant. -/
def Common.Experiment : String := "Experiment"

/-- A resource-reference key: a typed pointer `{Type, ID}` used to scope
authorization (`common.ReferenceKey`).  The Go field `Type` is rendered
`rType` because `Type` is reserved in Lean. -/
structure ReferenceKey where
  rType : String
  ID : String
  deriving DecidableEq, Repr

/-- The filter context extracted by `ValidateFilter` from a request's
resource-reference key: it carries at most one reference key relevant to
authorization scoping. -/
structure FilterContext where
  ReferenceKey : Option ReferenceKey
  deriving DecidableEq, Repr

/-- An opaque stored run, as returned by the engine (`model.RunDetail`). -/
structure RunModel where
  val : Nat
  deriving DecidableEq, Repr

/-- An opaque API view of a run detail (`api.RunDetail`), produced by the
`ToApiRunDetail` converter. -/
structure RunDetail where
  val : Nat
  deriving DecidableEq, Repr

/-- An opaque API view of a listed run (`api.Run`), produced by `ToApiRuns`. -/
structure ApiRunInfo where
  val : Nat
  deriving DecidableEq, Repr

/-- Opaque validated list options (`list.Options`), produced by
`validatedListOptions`. -/
structure ListOptions where
  val : Nat
  deriving DecidableEq, Repr

/-- An opaque pipeline spec carried by a run payload (`api.PipelineSpec`,
a nullable pointer in Go, hence `Option` at the use site). -/
structure PipelineSpec where
  val : Nat
  deriving DecidableEq, Repr

/-- An opaque resource reference of a run payload (`api.ResourceReference`);
this layer only forwards the list to `CheckPipelineVersionReference` and
`CanAccessExperimentInResourceReferences`. -/
structure ResourceReference where
  val : Nat
  deriving DecidableEq, Repr

/-- The run payload of a create request (`api.Run`): this layer reads its
`Name`, `PipelineSpec` and `ResourceReferences` fields. -/
structure ApiRun where
  Name : String
  PipelineSpec : Option PipelineSpec
  ResourceReferences : List ResourceReference
  deriving DecidableEq, Repr

/-- A run metric item (`api.RunMetric`): this layer reads `Name` and
`NodeId`; the value/format payload is opaque here. -/
structure RunMetric where
  Name : String
  NodeId : String
  payload : Nat
  deriving DecidableEq, Repr

/-- Request type `api.CreateRunRequest`; `Run` is a nullable pointer in Go. -/
structure CreateRunRequest where
  Run : Option ApiRun
  deriving DecidableEq, Repr

/-- Request type `api.GetRunRequest`. -/
structure GetRunRequest where
  RunId : String
  deriving DecidableEq, Repr

/-- Request type `api.ListRunsRequest`. -/
structure ListRunsRequest where
  PageToken : String
  PageSize : Int
  SortBy : String
  Filter : String
  ResourceReferenceKey : Option ReferenceKey
  deriving DecidableEq, Repr

/-- Request type `api.ReportRunMetricsRequest`. -/
structure ReportRunMetricsRequest where
  RunId : String
  Metrics : List RunMetric
  deriving DecidableEq, Repr

/-- Outcome of one reported metric item.
Modelled from the spec: `MetricResult: { name, nodeId, outcome: Ok |
Skipped | Error(reason) }` — the result constructor
`NewReportRunMetricResult` lives in a sibling file of the `server` package
that is not part of the sampled source. -/
inductive MetricOutcome where
  | ok
  | error (reason : String)
  deriving DecidableEq, Repr

/-- A per-item metric report result
(`api.ReportRunMetricsResponse_ReportRunMetricResult`). -/
structure ReportRunMetricResult where
  metricName : String
  metricNodeId : String
  outcome : MetricOutcome
  deriving DecidableEq, Repr

/-- Modelled from the spec: `NewReportRunMetricResult(name, nodeId, err)`
(defined outside the sampled source) records the given item's outcome —
`Ok` when `err` is absent, `Error(reason)` otherwise — into that item's
result slot. -/
def NewReportRunMetricResult (name nodeId : String) (err : Option SvcError) :
    ReportRunMetricResult :=
  ⟨name, nodeId,
    match err with
    | none => MetricOutcome.ok
    | some e => MetricOutcome.error e.msg⟩

/-- Response type `api.ReportRunMetricsResponse`. -/
structure ReportRunMetricsResponse where
  Results : List ReportRunMetricResult
  deriving DecidableEq, Repr

/-- Response type `api.ListRunsResponse`. -/
structure ListRunsResponse where
  Runs : List ApiRunInfo
  TotalSize : Int
  NextPageToken : String
  deriving DecidableEq, Repr

/-- One collaborator call made by the orchestration layer.  The embedding
records these in order, so that claims of the form "X is never invoked"
become statements about the trace. -/
inductive Event where
  | validatedListOptionsCall
  | validateFilterCall
  | isAuthorizedCall (ns : String)
  | canAccessExperimentCall (experimentId : String)
  | canAccessExperimentInResourceReferencesCall
  | getNamespaceFromRunIDCall (runId : String)
  | engineGetRunCall (runId : String)
  | engineListRunsCall
  | engineCreateRunCall
  | engineArchiveRunCall (runId : String)
  | engineUnarchiveRunCall (runId : String)
  | engineDeleteRunCall (runId : String)
  | engineTerminateRunCall (runId : String)
  | engineRetryRunCall (runId : String)
  | engineReportMetricCall (name nodeId : String)
  | validateRunMetricCall (name : String)
  | validatePipelineSpecCall
  | checkPipelineVersionReferenceCall
  deriving DecidableEq, Repr

/-- The external collaborators of `RunServer`, as pure oracles:
the process-wide mode flag `common.IsMultiUserMode`, the validators of the
`server` package defined outside the sampled file, the authorizer entry
points, and the resource engine (`resource.ResourceManager`).  `Ctx` is the
opaque caller context. -/
structure Env (Ctx : Type) where
  isMultiUserMode : Bool
  validatedListOptions :
    String → Int → String → String → Except SvcError ListOptions
  validateFilter : Option ReferenceKey → Except SvcError FilterContext
  isAuthorized : Ctx → String → Option SvcError
  canAccessExperiment : Ctx → String → Option SvcError
  canAccessExperimentInResourceReferences :
    Ctx → List ResourceReference → Option SvcError
  validateRunMetric : RunMetric → Option SvcError
  validatePipelineSpec : Option PipelineSpec → Option SvcError
  checkPipelineVersionReference : List ResourceReference → Option SvcError
  getRun : String → Except SvcError RunModel
  getNamespaceFromRunID : String → Except SvcError String
  listRuns :
    FilterContext → ListOptions → Except SvcError (List RunModel × Int × String)
  createRun : ApiRun → Except SvcError RunModel
  archiveRun : String → Option SvcError
  unarchiveRun : String → Option SvcError
  deleteRun : String → Option SvcError
  terminateRun : String → Option SvcError
  retryRun : String → Option SvcError
  reportMetric : RunMetric → String → Option SvcError
  readArtifact : String → String → String → Except SvcError (List Nat)
  toApiRunDetail : RunModel → RunDetail
  toApiRuns : List RunModel → List ApiRunInfo

/-- Outcome of an operation whose Go implementation can dereference a nil
pointer: an ordinary value, an ordinary error return, or a runtime fault
(Go panic on nil dereference). -/
inductive Outcome (α : Type) where
  | ok : α → Outcome α
  | err : SvcError → Outcome α
  | fault : Outcome α
  deriving DecidableEq, Repr

variable {Ctx : Type}

/-- Embedding of `RunServer.canAccessRun`: skip authorization entirely outside
multi-user mode; otherwise resolve the run's namespace through the engine,
fail with InternalError on an empty namespace, and consult the authorizer. -/
def canAccessRun (env : Env Ctx) (ctx : Ctx) (runId : String) :
    Except SvcError Unit × List Event :=
  if env.isMultiUserMode = false then
    -- Skip authz if not multi-user mode.
    (Except.ok (), [])
  else
    match env.getNamespaceFromRunID runId with
    | Except.error err =>
        (Except.error (Util.Wrap err "Failed to authorize with the run Id."),
         [Event.getNamespaceFromRunIDCall runId])
    | Except.ok ns =>
        if ns.length = 0 then
          (Except.error (Util.NewInternalServerError "There is no namespace found"),
           [Event.getNamespaceFromRunIDCall runId])
        else
          match env.isAuthorized ctx ns with
          | some err =>
              (Except.error
                 (Util.Wrap err "Failed to authorize with API resource references"),
               [Event.getNamespaceFromRunIDCall runId, Event.isAuthorizedCall ns])
          | none =>
              (Except.ok (),
               [Event.getNamespaceFromRunIDCall runId, Event.isAuthorizedCall ns])

/-- Embedding of `RunServer.GetRun`. -/
def getRunOp (env : Env Ctx) (ctx : Ctx) (request : GetRunRequest) :
    Except SvcError RunDetail × List Event :=
  match canAccessRun env ctx request.RunId with
  | (Except.error err, tr) =>
      (Except.error (Util.Wrap err "Failed to authorize the request."), tr)
  | (Except.ok _, tr) =>
      match env.getRun request.RunId with
      | Except.error err =>
          (Except.error err, tr ++ [Event.engineGetRunCall request.RunId])
      | Except.ok run =>
          (Except.ok (env.toApiRunDetail run),
           tr ++ [Event.engineGetRunCall request.RunId])

/-- The multi-user authorization block of `RunServer.ListRuns`
(lines 73–100): dispatch on the extracted filter context's reference key.
`requestKey` is the request's raw `ResourceReferenceKey`, quoted in the
final InvalidInput message. -/
def listRunsAuthCheck (env : Env Ctx) (ctx : Ctx) (filterContext : FilterContext)
    (requestKey : Option ReferenceKey) : Except SvcError Unit × List Event :=
  if env.isMultiUserMode then
    match filterContext.ReferenceKey with
    | none =>
        (Except.error (Util.NewInvalidInputError
           "ListRuns must filter by resource reference in multi-user mode."), [])
    | some refKey =>
        if refKey.rType = Common.Namespace then
          let ns := refKey.ID
          if ns.length = 0 then
            (Except.error (Util.NewInvalidInputError
               "Invalid resource references for ListRuns. Namespace is empty."), [])
          else
            match env.isAuthorized ctx ns with
            | some err =>
                (Except.error (Util.Wrap err
                   "Failed to authorize with namespace resource reference."),
                 [Event.isAuthorizedCall ns])
            | none => (Except.ok (), [Event.isAuthorizedCall ns])
        else if refKey.rType = Common.Experiment ∨ refKey.rType = "ExperimentUUID" then
          -- "ExperimentUUID" was introduced for perf optimization. We accept both
          -- refKey.Type for backward-compatible reason.
          let experimentID := refKey.ID
          if experimentID.length = 0 then
            (Except.error (Util.NewInvalidInputError
               "Invalid resource references for run. Experiment ID is empty."), [])
          else
            match env.canAccessExperiment ctx experimentID with
            | some err =>
                (Except.error (Util.Wrap err
                   "Failed to authorize with experiment resource reference."),
                 [Event.canAccessExperimentCall experimentID])
            | none => (Except.ok (), [Event.canAccessExperimentCall experimentID])
        else
          (Except.error (Util.NewInvalidInputError
             ("Invalid resource references for ListRuns. Got " ++
              toString (repr requestKey))), [])
  else
    (Except.ok (), [])

/-- Embedding of `RunServer.ListRuns`: validate list options, extract the filter
context, run the multi-user authorization block, then delegate to the
engine's list query. -/
def listRunsOp (env : Env Ctx) (ctx : Ctx) (request : ListRunsRequest) :
    Except SvcError ListRunsResponse × List Event :=
  match env.validatedListOptions request.PageToken request.PageSize
      request.SortBy request.Filter with
  | Except.error err =>
      (Except.error (Util.Wrap err "Failed to create list options"),
       [Event.validatedListOptionsCall])
  | Except.ok opts =>
      match env.validateFilter request.ResourceReferenceKey with
      | Except.error err =>
          (Except.error (Util.Wrap err "Validating filter failed."),
           [Event.validatedListOptionsCall, Event.validateFilterCall])
      | Except.ok filterContext =>
          match listRunsAuthCheck env ctx filterContext request.ResourceReferenceKey with
          | (Except.error err, tr) =>
              (Except.error err,
               Event.validatedListOptionsCall :: Event.validateFilterCall :: tr)
          | (Except.ok _, tr) =>
              match env.listRuns filterContext opts with
              | Except.error err =>
                  (Except.error (Util.Wrap err "Failed to list runs."),
                   Event.validatedListOptionsCall :: Event.validateFilterCall ::
                     tr ++ [Event.engineListRunsCall])
              | Except.ok (runs, total_size, nextPageToken) =>
                  (Except.ok ⟨env.toApiRuns runs, total_size, nextPageToken⟩,
                   Event.validatedListOptionsCall :: Event.validateFilterCall ::
                     tr ++ [Event.engineListRunsCall])

/-- One iteration of the `ReportRunMetrics` loop body: validate the item
and, only when validation passes, forward it to the engine; return the
error (if any) destined for this item's result slot. -/
def reportOneMetric (env : Env Ctx) (runId : String) (metric : RunMetric) :
    Option SvcError × List Event :=
  match env.validateRunMetric metric with
  | some err => (some err, [Event.validateRunMetricCall metric.Name])
  | none =>
      (env.reportMetric metric runId,
       [Event.validateRunMetricCall metric.Name,
        Event.engineReportMetricCall metric.Name metric.NodeId])

/-- The `for _, metric := range request.GetMetrics()` loop of
`ReportRunMetrics`: appends one result per item, in input order. -/
def reportMetricsLoop (env : Env Ctx) (runId : String) (metrics : List RunMetric) :
    List ReportRunMetricResult × List Event :=
  match metrics with
  | [] => ([], [])
  | metric :: rest =>
      (NewReportRunMetricResult metric.Name metric.NodeId
         (reportOneMetric env runId metric).1 ::
         (reportMetricsLoop env runId rest).1,
       (reportOneMetric env runId metric).2 ++ (reportMetricsLoop env runId rest).2)

/-- Embedding of `RunServer.ReportRunMetrics`: makes sure the run exists via the
engine's GetRun, then runs the per-item loop; item errors never escalate
to the call's overall result. -/
def reportRunMetricsOp (env : Env Ctx) (_ctx : Ctx)
    (request : ReportRunMetricsRequest) :
    Except SvcError ReportRunMetricsResponse × List Event :=
  match env.getRun request.RunId with
  | Except.error err => (Except.error err, [Event.engineGetRunCall request.RunId])
  | Except.ok _ =>
      (Except.ok ⟨(reportMetricsLoop env request.RunId request.Metrics).1⟩,
       Event.engineGetRunCall request.RunId ::
         (reportMetricsLoop env request.RunId request.Metrics).2)

/-- Embedding of `RunServer.validateCreateRunRequest`: dereferences `request.Run`
unconditionally (a nil payload faults), requires a non-empty name, then
accepts if the direct pipeline spec is valid, falling back to the
pipeline-version reference check only when the spec is invalid. -/
def validateCreateRunRequest (env : Env Ctx) (request : CreateRunRequest) :
    Outcome Unit × List Event :=
  match request.Run with
  | none => (Outcome.fault, [])
  | some run =>
      if run.Name = "" then
        (Outcome.err (Util.NewInvalidInputError
           "The run name is empty. Please specify a valid name."), [])
      else
        match env.validatePipelineSpec run.PipelineSpec with
        | some err =>
            match env.checkPipelineVersionReference run.ResourceReferences with
            | some errResourceReference =>
                (Outcome.err (Util.Wrap err
                   ("Neither pipeline spec nor pipeline version is valid. " ++
                    errResourceReference.msg)),
                 [Event.validatePipelineSpecCall,
                  Event.checkPipelineVersionReferenceCall])
            | none =>
                (Outcome.ok (),
                 [Event.validatePipelineSpecCall,
                  Event.checkPipelineVersionReferenceCall])
        | none => (Outcome.ok (), [Event.validatePipelineSpecCall])

/-- Embedding of `RunServer.CreateRun`: validate, authorize via the experiment resource
references, then delegate creation to the engine. -/
def createRunOp (env : Env Ctx) (ctx : Ctx) (request : CreateRunRequest) :
    Outcome RunDetail × List Event :=
  match validateCreateRunRequest env request with
  | (Outcome.fault, tr) => (Outcome.fault, tr)
  | (Outcome.err err, tr) =>
      (Outcome.err (Util.Wrap err "Validate create run request failed."), tr)
  | (Outcome.ok _, tr) =>
      match request.Run with
      | none => (Outcome.fault, tr)
      | some run =>
          match env.canAccessExperimentInResourceReferences ctx
              run.ResourceReferences with
          | some err =>
              (Outcome.err (Util.Wrap err "Failed to authorize the request."),
               tr ++ [Event.canAccessExperimentInResourceReferencesCall])
          | none =>
              match env.createRun run with
              | Except.error err =>
                  (Outcome.err (Util.Wrap err "Failed to create a new run."),
                   tr ++ [Event.canAccessExperimentInResourceReferencesCall,
                          Event.engineCreateRunCall])
              | Except.ok run2 =>
                  (Outcome.ok (env.toApiRunDetail run2),
                   tr ++ [Event.canAccessExperimentInResourceReferencesCall,
                          Event.engineCreateRunCall])

/-- Embedding of `RunServer.ArchiveRun`. -/
def archiveRunOp (env : Env Ctx) (ctx : Ctx) (runId : String) :
    Except SvcError Unit × List Event :=
  match canAccessRun env ctx runId with
  | (Except.error err, tr) =>
      (Except.error (Util.Wrap err "Failed to authorize the request."), tr)
  | (Except.ok _, tr) =>
      match env.archiveRun runId with
      | some err => (Except.error err, tr ++ [Event.engineArchiveRunCall runId])
      | none => (Except.ok (), tr ++ [Event.engineArchiveRunCall runId])

/-- Embedding of `RunServer.UnarchiveRun`. -/
def unarchiveRunOp (env : Env Ctx) (ctx : Ctx) (runId : String) :
    Except SvcError Unit × List Event :=
  match canAccessRun env ctx runId with
  | (Except.error err, tr) =>
      (Except.error (Util.Wrap err "Failed to authorize the request."), tr)
  | (Except.ok _, tr) =>
      match env.unarchiveRun runId with
      | some err => (Except.error err, tr ++ [Event.engineUnarchiveRunCall runId])
      | none => (Except.ok (), tr ++ [Event.engineUnarchiveRunCall runId])

/-- Embedding of `RunServer.DeleteRun`. -/
def deleteRunOp (env : Env Ctx) (ctx : Ctx) (runId : String) :
    Except SvcError Unit × List Event :=
  match canAccessRun env ctx runId with
  | (Except.error err, tr) =>
      (Except.error (Util.Wrap err "Failed to authorize the request."), tr)
  | (Except.ok _, tr) =>
      match env.deleteRun runId with
      | some err => (Except.error err, tr ++ [Event.engineDeleteRunCall runId])
      | none => (Except.ok (), tr ++ [Event.engineDeleteRunCall runId])

/-- Embedding of `RunServer.TerminateRun`. -/
def terminateRunOp (env : Env Ctx) (ctx : Ctx) (runId : String) :
    Except SvcError Unit × List Event :=
  match canAccessRun env ctx runId with
  | (Except.error err, tr) =>
      (Except.error (Util.Wrap err "Failed to authorize the request."), tr)
  | (Except.ok _, tr) =>
      match env.terminateRun runId with
      | some err => (Except.error err, tr ++ [Event.engineTerminateRunCall runId])
      | none => (Except.ok (), tr ++ [Event.engineTerminateRunCall runId])

/-- Embedding of `RunServer.RetryRun`. -/
def retryRunOp (env : Env Ctx) (ctx : Ctx) (runId : String) :
    Except SvcError Unit × List Event :=
  match canAccessRun env ctx runId with
  | (Except.error err, tr) =>
      (Except.error (Util.Wrap err "Failed to authorize the request."), tr)
  | (Except.ok _, tr) =>
      match env.retryRun runId with
      | some err => (Except.error err, tr ++ [Event.engineRetryRunCall runId])
      | none => (Except.ok (), tr ++ [Event.engineRetryRunCall runId])

/-! ### Concrete environments and inputs used by the witnesses -/

/-- A fully-succeeding single-tenant environment. -/
def envOk : Env Unit where
  isMultiUserMode := false
  validatedListOptions := fun _ _ _ _ => Except.ok ⟨0⟩
  validateFilter := fun k => Except.ok ⟨k⟩
  isAuthorized := fun _ _ => none
  canAccessExperiment := fun _ _ => none
  canAccessExperimentInResourceReferences := fun _ _ => none
  validateRunMetric := fun _ => none
  validatePipelineSpec := fun _ => none
  checkPipelineVersionReference := fun _ => none
  getRun := fun _ => Except.ok ⟨7⟩
  getNamespaceFromRunID := fun _ => Except.ok "team-a"
  listRuns := fun _ _ => Except.ok ([], 0, "")
  createRun := fun _ => Except.ok ⟨9⟩
  archiveRun := fun _ => none
  unarchiveRun := fun _ => none
  deleteRun := fun _ => none
  terminateRun := fun _ => none
  retryRun := fun _ => none
  reportMetric := fun _ _ => none
  readArtifact := fun _ _ _ => Except.ok []
  toApiRunDetail := fun r => ⟨r.val⟩
  toApiRuns := fun rs => rs.map fun r => ⟨r.val⟩

/-- Environment `envOk` with a metric validator that rejects metrics named "bad". -/
def envMetricBad : Env Unit :=
  { envOk with validateRunMetric := fun m =>
      if m.Name = "bad" then some ⟨ErrCode.invalidArgument, "invalid metric"⟩
      else none }

/-- Environment `envOk` with an engine whose GetRun always fails with NotFound. -/
def envRunMissing : Env Unit :=
  { envOk with getRun := fun _ => Except.error ⟨ErrCode.notFound, "run not found"⟩ }

/-- Environment `envOk` in multi-user mode. -/
def envMU : Env Unit := { envOk with isMultiUserMode := true }

/-- Multi-user environment whose engine resolves every run id to the empty
namespace. -/
def envEmptyNs : Env Unit :=
  { envMU with getNamespaceFromRunID := fun _ => Except.ok "" }

/-- Environment `envOk` where both the direct pipeline spec validation and the
pipeline-version reference check fail. -/
def envSpecBadBoth : Env Unit :=
  { envOk with
      validatePipelineSpec := fun _ => some ⟨ErrCode.invalidArgument, "bad spec"⟩,
      checkPipelineVersionReference := fun _ =>
        some ⟨ErrCode.invalidArgument, "bad version ref"⟩ }

/-- Environment `envOk` where the direct pipeline spec validation fails but the
pipeline-version reference check succeeds. -/
def envSpecBadRefOk : Env Unit :=
  { envOk with
      validatePipelineSpec := fun _ => some ⟨ErrCode.invalidArgument, "bad spec"⟩ }

/-- Multi-user environment whose list-options validation fails. -/
def envListOptsBad : Env Unit :=
  { envMU with validatedListOptions := fun _ _ _ _ =>
      Except.error ⟨ErrCode.invalidArgument, "bad sort field"⟩ }

/-- Multi-user environment whose filter validation fails. -/
def envFilterBad : Env Unit :=
  { envMU with validateFilter := fun _ =>
      Except.error ⟨ErrCode.invalidArgument, "bad filter"⟩ }

/-- A valid metric item. -/
def mA : RunMetric := ⟨"accuracy", "node-1", 0⟩

/-- A metric item rejected by `envMetricBad`. -/
def mB : RunMetric := ⟨"bad", "node-2", 1⟩

/-- Another valid metric item. -/
def mC : RunMetric := ⟨"loss", "node-3", 2⟩

/-- A three-item metric report request. -/
def reqABC : ReportRunMetricsRequest := ⟨"run-1", [mA, mB, mC]⟩

/-! ### Helper lemmas -/

/-- The results of the metric loop are the per-item function mapped over
the input list. -/
theorem reportMetricsLoop_results_eq (env : Env Ctx) (runId : String)
    (metrics : List RunMetric) :
    (reportMetricsLoop env runId metrics).1 =
      metrics.map fun m =>
        NewReportRunMetricResult m.Name m.NodeId (reportOneMetric env runId m).1 := by
  induction metrics with
  | nil => rfl
  | cons m rest ih => simp [reportMetricsLoop, ih]

/-- Every event of one loop-body iteration is a metric validation or a
metric persistence call. -/
theorem reportOneMetric_events (env : Env Ctx) (runId : String) (m : RunMetric) :
    ∀ ev ∈ (reportOneMetric env runId m).2,
      (∃ n, ev = Event.validateRunMetricCall n) ∨
      ∃ n d, ev = Event.engineReportMetricCall n d := by
  intro ev h
  unfold reportOneMetric at h
  cases hv : env.validateRunMetric m <;> rw [hv] at h <;> simp at h
  · rcases h with h | h
    · exact Or.inl ⟨m.Name, h⟩
    · exact Or.inr ⟨m.Name, m.NodeId, h⟩
  · exact Or.inl ⟨m.Name, h⟩

/-- Every event of the metric loop is a metric validation or a metric
persistence call. -/
theorem reportMetricsLoop_events (env : Env Ctx) (runId : String)
    (metrics : List RunMetric) :
    ∀ ev ∈ (reportMetricsLoop env runId metrics).2,
      (∃ n, ev = Event.validateRunMetricCall n) ∨
      ∃ n d, ev = Event.engineReportMetricCall n d := by
  induction metrics with
  | nil => intro ev h; simp [reportMetricsLoop] at h
  | cons m rest ih =>
      intro ev h
      simp only [reportMetricsLoop, List.mem_append] at h
      rcases h with h | h
      · exact reportOneMetric_events env runId m ev h
      · exact ih ev h

/-! ### Claim theorems -/

/-- Claim C1: for every run id on which the engine's GetRun succeeds and
every input metric list of N items (including N = 0), ReportRunMetrics
returns success with exactly N per-item results, in input order — the
result list is the per-item outcome function mapped over the input items —
regardless of the content of any item. -/
theorem reportRunMetrics_batch_shape (env : Env Ctx) (ctx : Ctx)
    (request : ReportRunMetricsRequest) (run : RunModel)
    (hrun : env.getRun request.RunId = Except.ok run) :
    ∃ resp : ReportRunMetricsResponse,
      (reportRunMetricsOp env ctx request).1 = Except.ok resp ∧
      resp.Results.length = request.Metrics.length ∧
      resp.Results = request.Metrics.map fun m =>
        NewReportRunMetricResult m.Name m.NodeId
          (reportOneMetric env request.RunId m).1 := by
  refine ⟨⟨(reportMetricsLoop env request.RunId request.Metrics).1⟩, ?_, ?_, ?_⟩
  · simp [reportRunMetricsOp, hrun]
  · simp [reportMetricsLoop_results_eq]
  · simp [reportMetricsLoop_results_eq]

/-- Witness for C1: a concrete three-item request against `envOk`. -/
theorem reportRunMetrics_batch_shape_witness :
    envOk.getRun reqABC.RunId = Except.ok ⟨7⟩ ∧
    ∃ resp : ReportRunMetricsResponse,
      (reportRunMetricsOp envOk () reqABC).1 = Except.ok resp ∧
      resp.Results.length = reqABC.Metrics.length ∧
      resp.Results = reqABC.Metrics.map fun m =>
        NewReportRunMetricResult m.Name m.NodeId
          (reportOneMetric envOk reqABC.RunId m).1 :=
  ⟨rfl, reportRunMetrics_batch_shape envOk () reqABC ⟨7⟩ rfl⟩

/-- Claim C2: within one ReportRunMetrics call on an existing run, items are
handled independently: an input list [valid, invalid, valid] yields
results [Ok, Error, Ok] — the invalid middle item's failure lands only in
its own result slot and later items are still processed. -/
theorem reportRunMetrics_item_independence (env : Env Ctx) (ctx : Ctx)
    (runId : String) (m1 m2 m3 : RunMetric) (run : RunModel) (e2 : SvcError)
    (hrun : env.getRun runId = Except.ok run)
    (h1v : env.validateRunMetric m1 = none)
    (h1r : env.reportMetric m1 runId = none)
    (h2 : env.validateRunMetric m2 = some e2)
    (h3v : env.validateRunMetric m3 = none)
    (h3r : env.reportMetric m3 runId = none) :
    (reportRunMetricsOp env ctx ⟨runId, [m1, m2, m3]⟩).1 =
      Except.ok ⟨[⟨m1.Name, m1.NodeId, MetricOutcome.ok⟩,
                  ⟨m2.Name, m2.NodeId, MetricOutcome.error e2.msg⟩,
                  ⟨m3.Name, m3.NodeId, MetricOutcome.ok⟩]⟩ := by
  simp [reportRunMetricsOp, hrun, reportMetricsLoop, reportOneMetric,
        h1v, h1r, h2, h3v, h3r, NewReportRunMetricResult]

/-- Witness for C2: `envMetricBad` rejects the middle item of `reqABC`. -/
theorem reportRunMetrics_item_independence_witness :
    envMetricBad.getRun "run-1" = Except.ok ⟨7⟩ ∧
    envMetricBad.validateRunMetric mA = none ∧
    envMetricBad.reportMetric mA "run-1" = none ∧
    envMetricBad.validateRunMetric mB = some ⟨ErrCode.invalidArgument, "invalid metric"⟩ ∧
    envMetricBad.validateRunMetric mC = none ∧
    envMetricBad.reportMetric mC "run-1" = none ∧
    (reportRunMetricsOp envMetricBad () ⟨"run-1", [mA, mB, mC]⟩).1 =
      Except.ok ⟨[⟨mA.Name, mA.NodeId, MetricOutcome.ok⟩,
                  ⟨mB.Name, mB.NodeId, MetricOutcome.error "invalid metric"⟩,
                  ⟨mC.Name, mC.NodeId, MetricOutcome.ok⟩]⟩ :=
  ⟨rfl, by decide, rfl, by decide, by decide, rfl,
   reportRunMetrics_item_independence envMetricBad () "run-1" mA mB mC ⟨7⟩
     ⟨ErrCode.invalidArgument, "invalid metric"⟩ rfl (by decide) rfl (by decide)
     (by decide) rfl⟩

/-- Claim C8: ReportRunMetrics first consults the engine's GetRun and, on
failure, returns that error immediately with no per-item results and no
further collaborator calls; it performs no explicit authorization step in
any mode — its trace never contains an authorizer call or a
run-to-namespace lookup — and its result is identical for any two calls
differing only in the caller context. -/
theorem reportRunMetrics_no_explicit_authz (env : Env Ctx) (ctx1 ctx2 : Ctx)
    (request : ReportRunMetricsRequest) :
    (∀ err, env.getRun request.RunId = Except.error err →
       reportRunMetricsOp env ctx1 request =
         (Except.error err, [Event.engineGetRunCall request.RunId])) ∧
    reportRunMetricsOp env ctx1 request = reportRunMetricsOp env ctx2 request ∧
    (∀ ns, Event.isAuthorizedCall ns ∉ (reportRunMetricsOp env ctx1 request).2) ∧
    (∀ e, Event.canAccessExperimentCall e ∉ (reportRunMetricsOp env ctx1 request).2) ∧
    (∀ i, Event.getNamespaceFromRunIDCall i ∉ (reportRunMetricsOp env ctx1 request).2) := by
  refine ⟨fun err herr => by simp [reportRunMetricsOp, herr], rfl, ?_, ?_, ?_⟩
  all_goals
    intro x hx
    unfold reportRunMetricsOp at hx
    cases hg : env.getRun request.RunId <;> rw [hg] at hx <;> simp at hx
    rcases reportMetricsLoop_events env request.RunId request.Metrics _ hx with
      ⟨n, h⟩ | ⟨n, d, h⟩ <;> exact absurd h (by simp)

/-- Witness for C8: a missing run against `envRunMissing`. -/
theorem reportRunMetrics_no_explicit_authz_witness :
    envRunMissing.getRun reqABC.RunId =
      Except.error ⟨ErrCode.notFound, "run not found"⟩ ∧
    reportRunMetricsOp envRunMissing () reqABC =
      (Except.error ⟨ErrCode.notFound, "run not found"⟩,
       [Event.engineGetRunCall reqABC.RunId]) :=
  ⟨rfl, (reportRunMetrics_no_explicit_authz envRunMissing () () reqABC).1
     ⟨ErrCode.notFound, "run not found"⟩ rfl⟩

/-- A ListRuns request carrying a reference key of unknown type. -/
def reqListUnknown : ListRunsRequest := ⟨"", 10, "", "", some ⟨"Unknown", "exp-1"⟩⟩

/-- Claim C3: in multi-tenant mode, every ListRuns request whose extracted
filter context has no reference key, or a reference key of a type other
than Namespace/Experiment/ExperimentUUID, or an empty id, fails with
InvalidInput, and the engine's list query is never invoked. -/
theorem listRuns_multiTenant_closed (env : Env Ctx) (ctx : Ctx)
    (request : ListRunsRequest) (opts : ListOptions) (fc : FilterContext)
    (hmu : env.isMultiUserMode = true)
    (hopts : env.validatedListOptions request.PageToken request.PageSize
       request.SortBy request.Filter = Except.ok opts)
    (hfc : env.validateFilter request.ResourceReferenceKey = Except.ok fc)
    (hbad : fc.ReferenceKey = none ∨
      ∃ refKey, fc.ReferenceKey = some refKey ∧
        ((refKey.rType ≠ Common.Namespace ∧ refKey.rType ≠ Common.Experiment ∧
          refKey.rType ≠ "ExperimentUUID") ∨ refKey.ID = "")) :
    ∃ err : SvcError,
      (listRunsOp env ctx request).1 = Except.error err ∧
      err.code = ErrCode.invalidArgument ∧
      Event.engineListRunsCall ∉ (listRunsOp env ctx request).2 := by
  have key : ∃ e : SvcError, e.code = ErrCode.invalidArgument ∧
      listRunsAuthCheck env ctx fc request.ResourceReferenceKey =
        (Except.error e, []) := by
    rcases hbad with h | ⟨refKey, hsome, hbad2⟩
    · refine ⟨Util.NewInvalidInputError
        "ListRuns must filter by resource reference in multi-user mode.", rfl, ?_⟩
      simp [listRunsAuthCheck, hmu, h]
    · rcases hbad2 with ⟨hn, he, hu⟩ | hid
      · refine ⟨Util.NewInvalidInputError
          ("Invalid resource references for ListRuns. Got " ++
           toString (repr request.ResourceReferenceKey)), rfl, ?_⟩
        simp [listRunsAuthCheck, hmu, hsome, hn, he, hu]
      · by_cases hrt : refKey.rType = Common.Namespace
        · refine ⟨Util.NewInvalidInputError
            "Invalid resource references for ListRuns. Namespace is empty.", rfl, ?_⟩
          simp [listRunsAuthCheck, hmu, hsome, hrt, hid]
        · by_cases hex : refKey.rType = Common.Experiment ∨
              refKey.rType = "ExperimentUUID"
          · refine ⟨Util.NewInvalidInputError
              "Invalid resource references for run. Experiment ID is empty.", rfl, ?_⟩
            simp [listRunsAuthCheck, hmu, hsome, hrt, hex, hid]
          · refine ⟨Util.NewInvalidInputError
              ("Invalid resource references for ListRuns. Got " ++
               toString (repr request.ResourceReferenceKey)), rfl, ?_⟩
            simp [listRunsAuthCheck, hmu, hsome, hrt, hex]
  obtain ⟨e, hcode, hc⟩ := key
  refine ⟨e, ?_, hcode, ?_⟩
  · simp [listRunsOp, hopts, hfc, hc]
  · simp [listRunsOp, hopts, hfc, hc]

/-- Witness for C3: an Unknown-typed reference key against `envMU`. -/
theorem listRuns_multiTenant_closed_witness :
    envMU.isMultiUserMode = true ∧
    envMU.validatedListOptions reqListUnknown.PageToken reqListUnknown.PageSize
      reqListUnknown.SortBy reqListUnknown.Filter = Except.ok ⟨0⟩ ∧
    envMU.validateFilter reqListUnknown.ResourceReferenceKey =
      Except.ok ⟨some ⟨"Unknown", "exp-1"⟩⟩ ∧
    ∃ err : SvcError,
      (listRunsOp envMU () reqListUnknown).1 = Except.error err ∧
      err.code = ErrCode.invalidArgument ∧
      Event.engineListRunsCall ∉ (listRunsOp envMU () reqListUnknown).2 :=
  ⟨rfl, rfl, rfl,
   listRuns_multiTenant_closed envMU () reqListUnknown ⟨0⟩
     ⟨some ⟨"Unknown", "exp-1"⟩⟩ rfl rfl rfl
     (Or.inr ⟨⟨"Unknown", "exp-1"⟩, rfl,
       Or.inl ⟨by decide, by decide, by decide⟩⟩)⟩

/-- Claim C9: ListRuns validates the list options and extracts the filter
context strictly before any authorization: when either validation fails,
the call returns that validation error with a trace containing only the
validation calls — no authorizer call and no engine call — in any mode. -/
theorem listRuns_validation_precedes_authz (env : Env Ctx) (ctx : Ctx)
    (request : ListRunsRequest) :
    (∀ err, env.validatedListOptions request.PageToken request.PageSize
        request.SortBy request.Filter = Except.error err →
      listRunsOp env ctx request =
        (Except.error (Util.Wrap err "Failed to create list options"),
         [Event.validatedListOptionsCall])) ∧
    (∀ opts err, env.validatedListOptions request.PageToken request.PageSize
        request.SortBy request.Filter = Except.ok opts →
      env.validateFilter request.ResourceReferenceKey = Except.error err →
      listRunsOp env ctx request =
        (Except.error (Util.Wrap err "Validating filter failed."),
         [Event.validatedListOptionsCall, Event.validateFilterCall])) := by
  constructor
  · intro err herr
    simp [listRunsOp, herr]
  · intro opts err hopts herr
    simp [listRunsOp, hopts, herr]

/-- Witness for C9: a failing list-options validation and a failing filter
validation, both in multi-user mode. -/
theorem listRuns_validation_precedes_authz_witness :
    envListOptsBad.validatedListOptions reqListUnknown.PageToken
      reqListUnknown.PageSize reqListUnknown.SortBy reqListUnknown.Filter =
      Except.error ⟨ErrCode.invalidArgument, "bad sort field"⟩ ∧
    listRunsOp envListOptsBad () reqListUnknown =
      (Except.error (Util.Wrap ⟨ErrCode.invalidArgument, "bad sort field"⟩
         "Failed to create list options"),
       [Event.validatedListOptionsCall]) ∧
    envFilterBad.validateFilter reqListUnknown.ResourceReferenceKey =
      Except.error ⟨ErrCode.invalidArgument, "bad filter"⟩ ∧
    listRunsOp envFilterBad () reqListUnknown =
      (Except.error (Util.Wrap ⟨ErrCode.invalidArgument, "bad filter"⟩
         "Validating filter failed."),
       [Event.validatedListOptionsCall, Event.validateFilterCall]) :=
  ⟨rfl,
   (listRuns_validation_precedes_authz envListOptsBad () reqListUnknown).1
     ⟨ErrCode.invalidArgument, "bad sort field"⟩ rfl,
   rfl,
   (listRuns_validation_precedes_authz envFilterBad () reqListUnknown).2
     ⟨0⟩ ⟨ErrCode.invalidArgument, "bad filter"⟩ rfl rfl⟩

/-- A well-formed run payload for the create-run witnesses. -/
def runGood : ApiRun := ⟨"my-run", some ⟨3⟩, [⟨5⟩]⟩

/-- A create request carrying `runGood`. -/
def reqCreate : CreateRunRequest := ⟨some runGood⟩

/-- Claim C4: for a create request with a non-empty run name — if the direct
pipeline spec is valid, validation succeeds and the version-reference
check is never attempted (the trace holds only the spec validation); if
the spec is invalid but the version reference resolves, validation
succeeds; if both fail, validation fails with an InvalidInput error whose
message carries both underlying causes.  (The spec-validator's own failure
is InvalidInput, per the contract of the external validator.) -/
theorem createRun_spec_version_fallback (env : Env Ctx) (request : CreateRunRequest)
    (run : ApiRun) (hrun : request.Run = some run) (hname : run.Name ≠ "") :
    (env.validatePipelineSpec run.PipelineSpec = none →
      validateCreateRunRequest env request =
        (Outcome.ok (), [Event.validatePipelineSpecCall])) ∧
    (∀ specErr, env.validatePipelineSpec run.PipelineSpec = some specErr →
      env.checkPipelineVersionReference run.ResourceReferences = none →
      (validateCreateRunRequest env request).1 = Outcome.ok ()) ∧
    (∀ specErr refErr, env.validatePipelineSpec run.PipelineSpec = some specErr →
      env.checkPipelineVersionReference run.ResourceReferences = some refErr →
      specErr.code = ErrCode.invalidArgument →
      (validateCreateRunRequest env request).1 =
        Outcome.err (Util.Wrap specErr
          ("Neither pipeline spec nor pipeline version is valid. " ++ refErr.msg)) ∧
      (Util.Wrap specErr
        ("Neither pipeline spec nor pipeline version is valid. " ++ refErr.msg)).code =
        ErrCode.invalidArgument ∧
      (Util.Wrap specErr
        ("Neither pipeline spec nor pipeline version is valid. " ++ refErr.msg)).msg =
        ("Neither pipeline spec nor pipeline version is valid. " ++ refErr.msg) ++
          ": " ++ specErr.msg) := by
  refine ⟨?_, ?_, ?_⟩
  · intro h
    simp [validateCreateRunRequest, hrun, hname, h]
  · intro specErr hs hr
    simp [validateCreateRunRequest, hrun, hname, hs, hr]
  · intro specErr refErr hs hr hcode
    refine ⟨?_, by simp [Util.Wrap, hcode], rfl⟩
    simp [validateCreateRunRequest, hrun, hname, hs, hr]

/-- Witness for C4: both validations fail on `reqCreate` under
`envSpecBadBoth`, producing the combined InvalidInput error. -/
theorem createRun_spec_version_fallback_witness :
    reqCreate.Run = some runGood ∧ runGood.Name ≠ "" ∧
    envSpecBadBoth.validatePipelineSpec runGood.PipelineSpec =
      some ⟨ErrCode.invalidArgument, "bad spec"⟩ ∧
    envSpecBadBoth.checkPipelineVersionReference runGood.ResourceReferences =
      some ⟨ErrCode.invalidArgument, "bad version ref"⟩ ∧
    (validateCreateRunRequest envSpecBadBoth reqCreate).1 =
      Outcome.err (Util.Wrap ⟨ErrCode.invalidArgument, "bad spec"⟩
        ("Neither pipeline spec nor pipeline version is valid. " ++ "bad version ref")) :=
  ⟨rfl, by decide, rfl, rfl,
   ((createRun_spec_version_fallback envSpecBadBoth reqCreate runGood rfl
       (by decide)).2.2 ⟨ErrCode.invalidArgument, "bad spec"⟩
     ⟨ErrCode.invalidArgument, "bad version ref"⟩ rfl rfl rfl).1⟩

/-- Claim C10: CreateRun's validation dereferences the request's Run payload
unconditionally: with an absent payload both the validation and the whole
operation fault (never returning an InvalidInput error), while the
empty-name InvalidInput error is produced only under the precondition that
a Run payload is present. -/
theorem createRun_nil_payload_faults (env : Env Ctx) (ctx : Ctx)
    (request : CreateRunRequest) :
    (request.Run = none →
      validateCreateRunRequest env request = (Outcome.fault, []) ∧
      createRunOp env ctx request = (Outcome.fault, []) ∧
      ∀ e, (validateCreateRunRequest env request).1 ≠ Outcome.err e) ∧
    (∀ run, request.Run = some run → run.Name = "" →
      (validateCreateRunRequest env request).1 =
        Outcome.err (Util.NewInvalidInputError
          "The run name is empty. Please specify a valid name.")) := by
  constructor
  · intro h
    refine ⟨by simp [validateCreateRunRequest, h],
            by simp [createRunOp, validateCreateRunRequest, h], ?_⟩
    intro e
    simp [validateCreateRunRequest, h]
  · intro run hr hname
    simp [validateCreateRunRequest, hr, hname]

/-- Witness for C10: a request with an absent Run payload faults; a present
payload with an empty name gets the InvalidInput error. -/
theorem createRun_nil_payload_faults_witness :
    ((⟨none⟩ : CreateRunRequest).Run = none) ∧
    validateCreateRunRequest envOk ⟨none⟩ = (Outcome.fault, []) ∧
    createRunOp envOk () ⟨none⟩ = (Outcome.fault, []) ∧
    (validateCreateRunRequest envOk ⟨some ⟨"", none, []⟩⟩).1 =
      Outcome.err (Util.NewInvalidInputError
        "The run name is empty. Please specify a valid name.") :=
  ⟨rfl, ((createRun_nil_payload_faults envOk () ⟨none⟩).1 rfl).1,
   ((createRun_nil_payload_faults envOk () ⟨none⟩).1 rfl).2.1,
   (createRun_nil_payload_faults envOk () ⟨some ⟨"", none, []⟩⟩).2
     ⟨"", none, []⟩ rfl rfl⟩

/-- Claim C5: in single-tenant mode the authorization stage passes
unconditionally: canAccessRun succeeds with no run-to-namespace lookup and
no authorizer call; the ListRuns reference-key requirement and
authorization checks are skipped for every filter context; and the result
of ListRuns is determined solely by payload validation and the delegated
engine call, its trace never containing an authorizer call. -/
theorem singleTenant_authz_bypass (env : Env Ctx) (ctx : Ctx)
    (hmode : env.isMultiUserMode = false) :
    (∀ runId, canAccessRun env ctx runId = (Except.ok (), [])) ∧
    (∀ fc reqKey, listRunsAuthCheck env ctx fc reqKey = (Except.ok (), [])) ∧
    (∀ request : ListRunsRequest, ∀ opts fc,
      env.validatedListOptions request.PageToken request.PageSize
        request.SortBy request.Filter = Except.ok opts →
      env.validateFilter request.ResourceReferenceKey = Except.ok fc →
      (listRunsOp env ctx request).1 =
        (match env.listRuns fc opts with
         | Except.error err => Except.error (Util.Wrap err "Failed to list runs.")
         | Except.ok (runs, total_size, nextPageToken) =>
             Except.ok ⟨env.toApiRuns runs, total_size, nextPageToken⟩)) ∧
    (∀ request : ListRunsRequest, ∀ ns,
      Event.isAuthorizedCall ns ∉ (listRunsOp env ctx request).2) ∧
    (∀ request : ListRunsRequest, ∀ e,
      Event.canAccessExperimentCall e ∉ (listRunsOp env ctx request).2) := by
  have hac : ∀ (fc : FilterContext) (reqKey : Option ReferenceKey),
      listRunsAuthCheck env ctx fc reqKey = (Except.ok (), []) := by
    intro fc reqKey
    simp [listRunsAuthCheck, hmode]
  have htr : ∀ request : ListRunsRequest,
      (listRunsOp env ctx request).2 = [Event.validatedListOptionsCall] ∨
      (listRunsOp env ctx request).2 =
        [Event.validatedListOptionsCall, Event.validateFilterCall] ∨
      (listRunsOp env ctx request).2 =
        [Event.validatedListOptionsCall, Event.validateFilterCall,
         Event.engineListRunsCall] := by
    intro request
    cases h1 : env.validatedListOptions request.PageToken request.PageSize
        request.SortBy request.Filter with
    | error err => exact Or.inl (by simp [listRunsOp, h1])
    | ok opts =>
        cases h2 : env.validateFilter request.ResourceReferenceKey with
        | error err => exact Or.inr (Or.inl (by simp [listRunsOp, h1, h2]))
        | ok fc =>
            refine Or.inr (Or.inr ?_)
            cases hl : env.listRuns fc opts with
            | error err => simp [listRunsOp, h1, h2, hac, hl]
            | ok triple =>
                obtain ⟨runs, ts, npt⟩ := triple
                simp [listRunsOp, h1, h2, hac, hl]
  refine ⟨?_, hac, ?_, ?_, ?_⟩
  · intro runId
    simp [canAccessRun, hmode]
  · intro request opts fc h1 h2
    cases hl : env.listRuns fc opts with
    | error err => simp [listRunsOp, h1, h2, hac, hl]
    | ok triple =>
        obtain ⟨runs, ts, npt⟩ := triple
        simp [listRunsOp, h1, h2, hac, hl]
  · intro request ns hx
    rcases htr request with h | h | h <;> rw [h] at hx <;> simp at hx
  · intro request e hx
    rcases htr request with h | h | h <;> rw [h] at hx <;> simp at hx

/-- Witness for C5: `envOk` is single-tenant and canAccessRun passes with
an empty trace. -/
theorem singleTenant_authz_bypass_witness :
    envOk.isMultiUserMode = false ∧
    canAccessRun envOk () "run-1" = (Except.ok (), []) :=
  ⟨rfl, (singleTenant_authz_bypass envOk () rfl).1 "run-1"⟩

/-- Claim C6: in multi-tenant mode, when the engine resolves a run id to an
empty namespace, canAccessRun — and with it GetRun, ArchiveRun,
UnarchiveRun, DeleteRun, TerminateRun and RetryRun — fails with an
InternalError, a code distinct from AuthorizationDenied and from
NotFound. -/
theorem emptyNamespace_internal_error (env : Env Ctx) (ctx : Ctx) (runId : String)
    (hmu : env.isMultiUserMode = true)
    (hns : env.getNamespaceFromRunID runId = Except.ok "") :
    canAccessRun env ctx runId =
      (Except.error (Util.NewInternalServerError "There is no namespace found"),
       [Event.getNamespaceFromRunIDCall runId]) ∧
    (getRunOp env ctx ⟨runId⟩).1 = Except.error
      (Util.Wrap (Util.NewInternalServerError "There is no namespace found")
        "Failed to authorize the request.") ∧
    (archiveRunOp env ctx runId).1 = Except.error
      (Util.Wrap (Util.NewInternalServerError "There is no namespace found")
        "Failed to authorize the request.") ∧
    (unarchiveRunOp env ctx runId).1 = Except.error
      (Util.Wrap (Util.NewInternalServerError "There is no namespace found")
        "Failed to authorize the request.") ∧
    (deleteRunOp env ctx runId).1 = Except.error
      (Util.Wrap (Util.NewInternalServerError "There is no namespace found")
        "Failed to authorize the request.") ∧
    (terminateRunOp env ctx runId).1 = Except.error
      (Util.Wrap (Util.NewInternalServerError "There is no namespace found")
        "Failed to authorize the request.") ∧
    (retryRunOp env ctx runId).1 = Except.error
      (Util.Wrap (Util.NewInternalServerError "There is no namespace found")
        "Failed to authorize the request.") ∧
    (Util.Wrap (Util.NewInternalServerError "There is no namespace found")
      "Failed to authorize the request.").code = ErrCode.internal ∧
    ErrCode.internal ≠ ErrCode.permissionDenied ∧
    ErrCode.internal ≠ ErrCode.notFound := by
  have h1 : canAccessRun env ctx runId =
      (Except.error (Util.NewInternalServerError "There is no namespace found"),
       [Event.getNamespaceFromRunIDCall runId]) := by
    simp [canAccessRun, hmu, hns]
  refine ⟨h1, ?_, ?_, ?_, ?_, ?_, ?_, rfl, by decide, by decide⟩
  · simp [getRunOp, h1]
  · simp [archiveRunOp, h1]
  · simp [unarchiveRunOp, h1]
  · simp [deleteRunOp, h1]
  · simp [terminateRunOp, h1]
  · simp [retryRunOp, h1]

/-- Witness for C6: `envEmptyNs` resolves every run id to the empty
namespace. -/
theorem emptyNamespace_internal_error_witness :
    envEmptyNs.isMultiUserMode = true ∧
    envEmptyNs.getNamespaceFromRunID "run-1" = Except.ok "" ∧
    canAccessRun envEmptyNs () "run-1" =
      (Except.error (Util.NewInternalServerError "There is no namespace found"),
       [Event.getNamespaceFromRunIDCall "run-1"]) :=
  ⟨rfl, rfl, (emptyNamespace_internal_error envEmptyNs () "run-1" rfl rfl).1⟩

/-- Claim C7: the legacy ExperimentUUID reference type is treated exactly
like Experiment by the ListRuns authorization block: for every experiment
id E and every caller context, the authorization outcome (result and
collaborator calls alike) for a reference key of type Experiment with id E
equals the one for type ExperimentUUID with id E. -/
theorem experimentUUID_alias_equivalent (env : Env Ctx) (ctx : Ctx) (E : String)
    (reqKey1 reqKey2 : Option ReferenceKey) :
    listRunsAuthCheck env ctx ⟨some ⟨Common.Experiment, E⟩⟩ reqKey1 =
    listRunsAuthCheck env ctx ⟨some ⟨"ExperimentUUID", E⟩⟩ reqKey2 := by
  by_cases h : env.isMultiUserMode = true
  · simp [listRunsAuthCheck, h, Common.Experiment, Common.Namespace]
  · simp [listRunsAuthCheck, h]
